import Mathlib

/-!
Shallow embedding, in Lean 4, of the AI-chatbot repository
(src/chat_engine.py, src/database_handler.py, src/token_tracker.py,
config/settings.py), together with theorems settling the frozen claims
about the conversation store, query routing, the SQL guardrail and the
token-cost accounting.

Conventions of the embedding:
  * Python lists become Lean lists; dicts with a fixed key set become
    structures; `None`-able values become `Option`.
  * Python floats (prices, scores) are modelled as rationals: the claims
    under study are about the algebraic structure of the computations,
    not about rounding.
  * `datetime.now()` is modelled by a `Nat` clock value passed in by the
    caller; it never influences control flow.
  * External collaborators (SQL engine, LLM completion, document query
    engine, the pricing config file) are modelled as explicit oracle
    parameters, so that every embedded function is a pure function of
    its inputs.
-/

/-- Python `s.strip()`: the string without leading and trailing
whitespace.  Implemented over the character list (Lean's built-in
`String.trim` is byte-position based and does not reduce inside the
kernel); `Char.isWhitespace` models Python's whitespace class over the
ASCII range the program works with. -/
def pyStrip (s : String) : String :=
  String.mk (((s.data.dropWhile Char.isWhitespace).reverse.dropWhile
    Char.isWhitespace).reverse)

/-- Python `s.upper()` over the ASCII range. -/
def pyUpper (s : String) : String :=
  String.mk (s.data.map Char.toUpper)

/-- Python `s.lower()` over the ASCII range. -/
def pyLower (s : String) : String :=
  String.mk (s.data.map Char.toLower)

/-- Python `s.startswith(pre)`. -/
def pyStartsWith (s pre : String) : Bool :=
  pre.data.isPrefixOf s.data

/-- A pandas DataFrame as used by the pipeline: column names plus rows.
`df.empty` in the source corresponds to `rows.isEmpty`. -/
structure DF where
  columns : List String
  rows : List (List String)
deriving DecidableEq

/-- The result dictionaries produced by `process_document_query`,
`process_database_query`, `process_general_query` and `process_message`.
The Python dicts carry different key sets per route; keys absent from a
given dict are modelled by their default value here.  `rtype` embeds the
dict key "type". -/
structure ChatResult where
  response : String
  rtype : String
  sources : List (String × ℚ) := []
  sql_query : Option String := none
  data : Option DF := none
  query : Option String := none
deriving DecidableEq

/-- A conversation-store entry, as built by `ChatEngine.add_message`:
`{"role": ..., "content": ..., "timestamp": ..., "metadata": ...}`.
The timestamp is the caller-supplied clock value; `metadata or {}` is
modelled as an `Option ChatResult` (the only metadata the engine ever
stores is the routing result dict). -/
structure Message where
  role : String
  content : String
  timestamp : Nat
  metadata : Option ChatResult := none
deriving DecidableEq

/-- config/settings.py: `MAX_CONVERSATION_HISTORY = 20`. -/
def MAX_CONVERSATION_HISTORY : Nat := 20

/-- The history-limit enforcement inside `add_message`:
if `len(messages) > limit * 2` the store is replaced by
`messages[-limit * 2:]`.  A Python slice `xs[-0:]` is `xs` itself, so
for `limit = 0` the guard fires but the slice removes nothing; for
positive `limit` the slice keeps the last `limit * 2` entries, i.e.
drops `length - limit * 2` from the front. -/
def evict (limit : Nat) (l : List Message) : List Message :=
  if l.length > limit * 2 then
    if limit * 2 = 0 then l else l.drop (l.length - limit * 2)
  else l

/-- Appending one already-built message dict to the store followed by the
history-limit enforcement: the list-level core of `add_message`. -/
def append_message (limit : Nat) (msgs : List Message) (m : Message) : List Message :=
  evict limit (msgs ++ [m])

/-- Embeds `ChatEngine.add_message(role, content, metadata)`: builds the message
dict (with the current timestamp) and appends it, then enforces the
history limit. -/
def add_message (limit : Nat) (msgs : List Message) (role content : String)
    (metadata : Option ChatResult) (now : Nat) : List Message :=
  append_message limit msgs ⟨role, content, now, metadata⟩

theorem evict_of_le {limit : Nat} {l : List Message} (h : l.length ≤ limit * 2) :
    evict limit l = l := by
  unfold evict
  simp [Nat.not_lt.mpr h]

theorem evict_of_full {limit : Nat} (hpos : 0 < limit) {l : List Message}
    (h : limit * 2 < l.length) :
    evict limit l = l.drop (l.length - limit * 2) := by
  unfold evict
  have h2 : limit * 2 ≠ 0 := by omega
  simp [h, h2]

/-- Closed form of a whole run: folding `append_message` over any message
sequence from the empty store keeps exactly the last `limit * 2`
messages (all of them while the sequence is still short). -/
theorem foldl_append_message (limit : Nat) (hpos : 0 < limit) (ms : List Message) :
    List.foldl (append_message limit) [] ms = ms.drop (ms.length - limit * 2) := by
  induction ms using List.reverseRecOn with
  | nil => simp
  | append_singleton ms a ih =>
    rw [List.foldl_append, ih]
    show append_message limit (ms.drop (ms.length - limit * 2)) a = _
    unfold append_message
    rcases Nat.lt_or_ge ms.length (limit * 2) with hlen | hlen
    · have h0 : ms.length - limit * 2 = 0 := by omega
      rw [h0, List.drop_zero]
      have hle : (ms ++ [a]).length ≤ limit * 2 := by
        simp; omega
      rw [evict_of_le hle]
      have h0' : (ms ++ [a]).length - limit * 2 = 0 := by simp; omega
      rw [h0', List.drop_zero]
    · have hlt : limit * 2 < (ms.drop (ms.length - limit * 2) ++ [a]).length := by
        simp [List.length_drop]; omega
      rw [evict_of_full hpos hlt]
      have hlen' : (ms.drop (ms.length - limit * 2) ++ [a]).length = limit * 2 + 1 := by
        simp [List.length_drop]; omega
      rw [hlen']
      have h1 : limit * 2 + 1 - limit * 2 = 1 := by omega
      rw [h1]
      have hd1 : 1 ≤ (ms.drop (ms.length - limit * 2)).length := by
        simp [List.length_drop]; omega
      rw [List.drop_append_of_le_length hd1, List.drop_drop]
      have hd2 : ms.length + 1 - limit * 2 ≤ ms.length := by omega
      rw [List.drop_append_of_le_length (by simpa using hd2)]
      have : ms.length - limit * 2 + 1 = (ms ++ [a]).length - limit * 2 := by
        simp; omega
      rw [this]

/-- C5: with history limit `N`, a store built by any sequence of appends
never holds more than `2 * N` messages, and after `2 * N + 2` appends it
holds exactly the most recent `2 * N` messages in insertion order. -/
theorem conversation_store_bound (limit : Nat) (hpos : 0 < limit) (ms : List Message) :
    (List.foldl (append_message limit) [] ms).length ≤ limit * 2 ∧
    (ms.length = limit * 2 + 2 →
      List.foldl (append_message limit) [] ms = ms.drop 2) := by
  rw [foldl_append_message limit hpos]
  constructor
  · rw [List.length_drop]; omega
  · intro h
    have h2 : ms.length - limit * 2 = 2 := by omega
    rw [h2]

/-- A concrete four-message run used to instantiate `conversation_store_bound`. -/
def wMsgs : List Message :=
  [⟨"user", "m1", 0, none⟩, ⟨"assistant", "r1", 1, none⟩,
   ⟨"user", "m2", 2, none⟩, ⟨"assistant", "r2", 3, none⟩]

theorem conversation_store_bound_witness :
    0 < 1 ∧ (List.foldl (append_message 1) [] wMsgs).length ≤ 1 * 2 ∧
      List.foldl (append_message 1) [] wMsgs = wMsgs.drop 2 :=
  ⟨by decide, (conversation_store_bound 1 (by decide) wMsgs).1,
    (conversation_store_bound 1 (by decide) wMsgs).2 (by decide)⟩

/-- An alternating user/assistant run of 41 messages at the shipped limit
of 20: the 41st append (a user message) overflows the store. -/
def orphanMsgs : List Message :=
  (List.range 41).map
    (fun i => ⟨if i % 2 = 0 then "user" else "assistant", "q", i, none⟩)

/-- C6: refuted on the code.  At the shipped limit 20, the append of the
21st user message evicts a single message (not a whole pair), leaving a
store whose head is the assistant reply whose prompting user message was
just evicted. -/
theorem add_message_orphans_reply :
    List.foldl (append_message MAX_CONVERSATION_HISTORY) [] orphanMsgs
      = orphanMsgs.drop 1 ∧
    (List.foldl (append_message MAX_CONVERSATION_HISTORY) [] orphanMsgs).head?.map
      Message.role = some "assistant" := by
  have h := foldl_append_message MAX_CONVERSATION_HISTORY (by decide) orphanMsgs
  have hl : orphanMsgs.length = 41 := by decide
  rw [h, hl]
  constructor
  · rfl
  · decide

/-- Python substring membership `pat in s`, as used by `classify_query`
on the lowercased message. -/
def strContains (s pat : String) : Bool :=
  (List.range (s.toList.length + 1)).any
    (fun i => pat.toList.isPrefixOf (s.toList.drop i))

/-- The `db_keywords` list of `classify_query`, verbatim. -/
def db_keywords : List String :=
  ["database", "table", "sql", "query", "select", "from", "where",
   "join", "count", "sum", "average", "data", "records", "rows",
   "columns", "schema", "postgres", "postgresql"]

/-- The `doc_keywords` list of `classify_query`, verbatim. -/
def doc_keywords : List String :=
  ["document", "file", "pdf", "text", "uploaded", "content",
   "what does the document say", "in the file", "according to"]

/-- Python `len(s.split())`: the number of maximal non-whitespace runs
(argument-free `split` discards empty pieces). -/
def wordCount (s : String) : Nat :=
  (s.data.foldl
    (fun (st : Nat × Bool) c =>
      if c.isWhitespace then (st.1, false)
      else if st.2 then st else (st.1 + 1, true))
    (0, false)).1

/-- Embeds `ChatEngine.classify_query`.  The source is a sequence of early
returns; each fall-through is embedded as the else-branch of the
preceding test.  `uploaded_files` models the truthiness test on
`document_handler.get_uploaded_files()` (a dict keyed by file hash);
`dbConnected` models `database_handler.get_connection_status()`. -/
def classify_query (dbConnected : Bool) (uploaded_files : List String)
    (user_message : String) : String :=
  if (db_keywords.any fun k => strContains (pyLower user_message) k) ∧ dbConnected then
    "database"
  else if (doc_keywords.any fun k => strContains (pyLower user_message) k) ∧
      uploaded_files ≠ [] then
    "document"
  else if uploaded_files ≠ [] ∧ wordCount user_message > 3 then
    "document"
  else
    "general"

/-- Modelled from the spec: the documented precedence order for
classification — database keyword with an active connection, else
document keyword with a non-empty corpus, else a message of more than 3
words with a non-empty corpus, else general. -/
def classify_query_documented (dbConnected : Bool) (uploaded_files : List String)
    (user_message : String) : String :=
  if db_keywords.any (fun k => strContains (pyLower user_message) k) ∧ dbConnected then
    "database"
  else if doc_keywords.any (fun k => strContains (pyLower user_message) k) ∧
      uploaded_files ≠ [] then
    "document"
  else if uploaded_files ≠ [] ∧ wordCount user_message > 3 then
    "document"
  else
    "general"

/-- C3: `classify_query` is a pure function that coincides with the
documented precedence cascade, and with no active database connection
its result is never "database", database keyword or not. -/
theorem classify_query_follows_documented_precedence
    (dbConnected : Bool) (files : List String) (m : String) :
    classify_query dbConnected files m = classify_query_documented dbConnected files m ∧
    (dbConnected = false → classify_query dbConnected files m ≠ "database") := by
  constructor
  · unfold classify_query classify_query_documented
    rfl
  · intro h
    subst h
    unfold classify_query
    rw [if_neg (fun hc => absurd hc.2 (by decide))]
    split_ifs <;> decide

theorem classify_query_precedence_witness :
    classify_query false ["report.pdf"] "query the sql table"
      = classify_query_documented false ["report.pdf"] "query the sql table" ∧
    classify_query false ["report.pdf"] "query the sql table" ≠ "database" :=
  ⟨(classify_query_follows_documented_precedence false ["report.pdf"]
      "query the sql table").1,
   (classify_query_follows_documented_precedence false ["report.pdf"]
      "query the sql table").2 rfl⟩

/-- Embeds `DatabaseHandler.execute_sql_query`.  The relational store is the
oracle `engine`: `none` models no connection; `some eng` maps a
submitted statement to its result rows or a SQLAlchemyError.  The second
component of the result is the log of statements actually submitted to
the store via `conn.execute(text(...))`; the first is the returned
DataFrame (`none` on rejection, missing connection or execution error). -/
def execute_sql_query (engine : Option (String → Except String DF))
    (query : String) : Option DF × List String :=
  match engine with
  | none => (none, [])
  | some eng =>
    let q := pyStrip query
    if ¬ (pyStartsWith (pyUpper q) "SELECT") then (none, [])
    else
      match eng q with
      | Except.ok df => (some df, [q])
      | Except.error _ => (none, [q])

/-- C2: any statement whose trimmed form does not begin (after
uppercasing) with SELECT is rejected before any execution: nothing is
submitted to the relational store and no row data is returned. -/
theorem execute_sql_query_rejects_non_select
    (engine : Option (String → Except String DF)) (q : String)
    (h : ¬ (pyStartsWith (pyUpper (pyStrip q)) "SELECT" = true)) :
    execute_sql_query engine q = (none, []) := by
  cases engine with
  | none => rfl
  | some eng =>
    unfold execute_sql_query
    simp [h]

/-- A relational-store oracle that accepts every statement and returns an
empty result, used to instantiate the guardrail theorems. -/
def wEngineOk : String → Except String DF := fun _ => Except.ok ⟨[], []⟩

theorem execute_sql_query_rejects_non_select_witness :
    ¬ (pyStartsWith (pyUpper (pyStrip "DROP TABLE users")) "SELECT" = true) ∧
    execute_sql_query (some wEngineOk) "DROP TABLE users" = (none, []) :=
  ⟨by decide,
   execute_sql_query_rejects_non_select (some wEngineOk) "DROP TABLE users" (by decide)⟩

/-- C10, refuted as literally stated: the source rebinds the statement to
its stripped form before submission, so a statement with surrounding
whitespace is not submitted as its original text. -/
theorem sql_guardrail_not_verbatim_original :
    pyStartsWith (pyUpper (pyStrip " SELECT 1; DROP TABLE t")) "SELECT" = true ∧
    (execute_sql_query (some wEngineOk) " SELECT 1; DROP TABLE t").2
      ≠ [" SELECT 1; DROP TABLE t"] := by
  constructor
  · decide
  · decide

/-- C10 amended: the guardrail is exactly a prefix test on the trimmed
statement — whenever the trimmed statement uppercases to a SELECT-prefixed
string, that trimmed statement is submitted verbatim to the relational
store, whatever follows the prefix and whatever the store does with it. -/
theorem sql_guardrail_submits_trimmed_verbatim
    (eng : String → Except String DF) (q : String)
    (h : pyStartsWith (pyUpper (pyStrip q)) "SELECT" = true) :
    (execute_sql_query (some eng) q).2 = [pyStrip q] := by
  unfold execute_sql_query
  simp only [h, not_true_eq_false, if_false]
  cases eng (pyStrip q) <;> rfl

theorem sql_guardrail_submits_trimmed_verbatim_witness :
    pyStartsWith (pyUpper (pyStrip "SELECT 1; DROP TABLE t")) "SELECT" = true ∧
    (execute_sql_query (some wEngineOk) "SELECT 1; DROP TABLE t").2
      = ["SELECT 1; DROP TABLE t"] :=
  ⟨by decide,
   sql_guardrail_submits_trimmed_verbatim wEngineOk "SELECT 1; DROP TABLE t" (by decide)⟩

/-- One entry of the OpenAI price table: cost per 1000 tokens for input
and output (Python floats modelled as rationals). -/
structure Price where
  input : ℚ
  output : ℚ
deriving DecidableEq

/-- Embeds `get_fallback_pricing` of src/token_tracker.py, verbatim. -/
def get_fallback_pricing : List (String × Price) :=
  [("gpt-4", ⟨0.03, 0.06⟩),
   ("gpt-4-turbo", ⟨0.01, 0.03⟩),
   ("gpt-4-turbo-preview", ⟨0.01, 0.03⟩),
   ("gpt-4o", ⟨0.005, 0.015⟩),
   ("gpt-4o-mini", ⟨0.00015, 0.0006⟩),
   ("gpt-3.5-turbo", ⟨0.0015, 0.002⟩),
   ("gpt-3.5-turbo-0125", ⟨0.0005, 0.0015⟩),
   ("gpt-3.5-turbo-instruct", ⟨0.0015, 0.002⟩),
   ("text-embedding-ada-002", ⟨0.0001, 0.0⟩),
   ("text-embedding-3-small", ⟨0.00002, 0.0⟩),
   ("text-embedding-3-large", ⟨0.00013, 0.0⟩)]

/-- The observable states of config/openai_pricing.json as seen by
`load_pricing_config`: the file may be absent, unreadable or unparsable
(any exception is caught), or parsed JSON; in the parsed case each entry
carries `some price` when its value is a dict having both "input" and
"output" keys, and `none` otherwise (metadata fields). -/
inductive ConfigState where
  | missing
  | unreadable
  | content (entries : List (String × Option Price))

/-- Embeds `load_pricing_config`: read and filter the config file, falling back
to the hardcoded table when the file is absent, raises, or yields no
valid pricing entry.  Total: every failure is caught inside. -/
def load_pricing_config : ConfigState → List (String × Price)
  | ConfigState.missing => get_fallback_pricing
  | ConfigState.unreadable => get_fallback_pricing
  | ConfigState.content entries =>
    let pricing := entries.filterMap (fun e => e.2.map (fun p => (e.1, p)))
    if pricing.isEmpty then get_fallback_pricing else pricing

/-- Embeds `TokenTracker.refresh_pricing`: rebuilds the table via
`load_pricing_config` and installs it, returning success.  The
`except` branch of the source is unreachable because
`load_pricing_config` handles every failure internally, so the embedded
function unconditionally returns `true` together with the new table
(the new value of the module-level OPENAI_PRICING). -/
def refresh_pricing (cfg : ConfigState) (current : List (String × Price)) :
    Bool × List (String × Price) :=
  (true, load_pricing_config cfg)

/-- A prior in-memory price table distinct from the fallback table. -/
def wPriorPricing : List (String × Price) :=
  [("custom-model", ⟨1, 2⟩)]

/-- C8, refuted: when loading the configuration fails (file unreadable),
`refresh_pricing` still reports success and replaces the in-memory table
with the hardcoded fallback — the prior table is not left intact. -/
theorem refresh_pricing_replaces_on_failure :
    (refresh_pricing ConfigState.unreadable wPriorPricing).1 = true ∧
    (refresh_pricing ConfigState.unreadable wPriorPricing).2 = get_fallback_pricing ∧
    (refresh_pricing ConfigState.unreadable wPriorPricing).2 ≠ wPriorPricing := by
  refine ⟨rfl, rfl, ?_⟩
  decide

/-- C8 amended: `refresh_pricing` always returns true and always swaps
the in-memory table for whatever `load_pricing_config` produced; on any
load failure that product is the hardcoded fallback table, regardless of
the prior table. -/
theorem refresh_pricing_always_swaps (cfg : ConfigState)
    (current : List (String × Price)) :
    refresh_pricing cfg current = (true, load_pricing_config cfg) ∧
    refresh_pricing ConfigState.unreadable current = (true, get_fallback_pricing) ∧
    refresh_pricing ConfigState.missing current = (true, get_fallback_pricing) :=
  ⟨rfl, rfl, rfl⟩

/-- Embeds `TokenTracker.calculate_cost`: unknown model names are replaced by
the default "gpt-3.5-turbo" before the table lookup; the lookup itself
raises (modelled by `none`) only when even the default is absent. -/
def calculate_cost (pricing : List (String × Price))
    (input_tokens output_tokens : Nat) (model : String) : Option ℚ :=
  let m := if (pricing.lookup model).isSome then model else "gpt-3.5-turbo"
  match pricing.lookup m with
  | some p =>
      some ((input_tokens : ℚ) / 1000 * p.input + (output_tokens : ℚ) / 1000 * p.output)
  | none => none

/-- C4: as long as the table prices the default model, `calculate_cost`
never raises and equals the documented formula at the model's entry —
or at the default entry when the model is unknown; adding `d` output
tokens adds exactly `d / 1000` times the output price. -/
theorem calculate_cost_formula (pricing : List (String × Price))
    (i o d : Nat) (model : String)
    (hdef : (pricing.lookup "gpt-3.5-turbo").isSome = true) :
    ∃ p : Price,
      (pricing.lookup model = some p ∨
        (pricing.lookup model = none ∧ pricing.lookup "gpt-3.5-turbo" = some p)) ∧
      calculate_cost pricing i o model
        = some ((i : ℚ) / 1000 * p.input + (o : ℚ) / 1000 * p.output) ∧
      calculate_cost pricing i (o + d) model
        = some (((i : ℚ) / 1000 * p.input + (o : ℚ) / 1000 * p.output)
            + (d : ℚ) / 1000 * p.output) := by
  unfold calculate_cost
  cases hm : pricing.lookup model with
  | some p =>
    refine ⟨p, Or.inl rfl, ?_, ?_⟩
    · simp [hm]
    · simp [hm]
      ring
  | none =>
    obtain ⟨p, hp⟩ := Option.isSome_iff_exists.mp hdef
    refine ⟨p, Or.inr ⟨rfl, hp⟩, ?_, ?_⟩
    · simp [hm, hp]
    · simp [hm, hp]
      ring

theorem calculate_cost_formula_witness :
    ((get_fallback_pricing.lookup "gpt-3.5-turbo").isSome = true) ∧
    (∃ p : Price,
      (get_fallback_pricing.lookup "unknown-model" = some p ∨
        (get_fallback_pricing.lookup "unknown-model" = none ∧
          get_fallback_pricing.lookup "gpt-3.5-turbo" = some p)) ∧
      calculate_cost get_fallback_pricing 1000 2000 "unknown-model"
        = some ((1000 : ℚ) / 1000 * p.input + (2000 : ℚ) / 1000 * p.output) ∧
      calculate_cost get_fallback_pricing 1000 (2000 + 500) "unknown-model"
        = some (((1000 : ℚ) / 1000 * p.input + (2000 : ℚ) / 1000 * p.output)
            + (500 : ℚ) / 1000 * p.output)) :=
  ⟨by decide,
   calculate_cost_formula get_fallback_pricing 1000 2000 500 "unknown-model" (by decide)⟩

/-- Embeds `ChatEngine.process_document_query`.  The document query engine is
`none` when no index exists; otherwise it maps the message to the
response text and the extracted source list, or to an exception. -/
def process_document_query
    (query_engine : Option (String → Except String (String × List (String × ℚ))))
    (user_message : String) : ChatResult :=
  match query_engine with
  | none =>
    { response := "No documents are currently uploaded. Please upload some documents first.",
      sources := [], rtype := "error" }
  | some qe =>
    match qe user_message with
    | Except.ok r =>
      { response := r.1, sources := r.2, rtype := "document", query := some user_message }
    | Except.error e =>
      { response := "Error processing document query: " ++ e,
        sources := [], rtype := "error" }

/-- Embeds `ChatEngine._generate_database_response` (its internal `except` is
unreachable for the embedded total operations). -/
def generate_database_response (data : Option DF) : String :=
  match data with
  | none => "The query executed successfully but returned no results."
  | some d =>
    if d.rows.isEmpty then "The query executed successfully but returned no results."
    else
      let num_rows := d.rows.length
      let num_cols := d.columns.length
      let headline :=
        if num_rows = 1 then
          "I found 1 record with " ++ toString num_cols ++ " columns."
        else
          "I found " ++ toString num_rows ++ " records with "
            ++ toString num_cols ++ " columns."
      let parts :=
        if num_rows ≤ 10 ∧ num_cols ≤ 5 then
          [headline, "\nHere are the results:"]
        else if num_rows > 10 then
          [headline, "\nShowing first 10 out of " ++ toString num_rows ++ " records:"]
        else
          [headline]
      String.intercalate " " parts

/-- Embeds `DatabaseHandler.natural_language_to_sql`.  `hasSqlDatabase` models
`self.sql_database` being set; `enhance` models
`_enhance_question_with_context` (a string transformation whose content
depends on live database state); `nlsql` models the
NLSQLTableQueryEngine: enhanced question to (response text, SQL found in
the response metadata, with `none` for a missing or
"Query not available" value).  When SQL was extracted it is run through
`execute_sql_query`; otherwise the response text is wrapped in a
one-cell DataFrame. -/
def natural_language_to_sql (engine : Option (String → Except String DF))
    (hasSqlDatabase : Bool) (enhance : String → String)
    (nlsql : String → String × Option String) (question : String) :
    Option (Option String × Option DF) :=
  if ¬ hasSqlDatabase then none
  else
    let resp := nlsql (enhance question)
    match resp.2 with
    | some sql => some (some sql, (execute_sql_query engine sql).1)
    | none => some (none, some ⟨["Response"], [[resp.1]]⟩)

/-- Embeds the test `data is None or data.empty` of `process_database_query`. -/
def dataNoneOrEmpty : Option DF → Bool
  | none => true
  | some d => d.rows.isEmpty

/-- Embeds `ChatEngine.process_database_query`. -/
def process_database_query (connection_status : Bool)
    (engine : Option (String → Except String DF)) (hasSqlDatabase : Bool)
    (enhance : String → String) (nlsql : String → String × Option String)
    (user_message : String) : ChatResult :=
  if ¬ connection_status then
    { response := "No database connection. Please connect to a database first.",
      sql_query := none, data := none, rtype := "error" }
  else
    match natural_language_to_sql engine hasSqlDatabase enhance nlsql user_message with
    | none =>
      { response := "Failed to process the database query. Please try rephrasing your question.",
        sql_query := none, data := none, rtype := "error" }
    | some r =>
      if dataNoneOrEmpty r.2 then
        { response := "The query executed successfully but returned no results.",
          sql_query := r.1, data := none, rtype := "database" }
      else
        { response := generate_database_response r.2,
          sql_query := r.1, data := r.2, rtype := "database",
          query := some user_message }

/-- A relational-store oracle on which every execution fails with a
SQLAlchemyError. -/
def failEngine : String → Except String DF :=
  fun _ => Except.error "SQL execution error"

/-- A relational-store oracle on which every execution succeeds with a
zero-row result set. -/
def emptyEngine : String → Except String DF :=
  fun _ => Except.ok ⟨["a"], []⟩

/-- A natural-language-to-SQL oracle that always proposes the same
SELECT statement. -/
def wNlsql : String → String × Option String :=
  fun _ => ("resp", some "SELECT a FROM t")

/-- C9, refuted: a question whose generated SQL fails at execution
produces exactly the same pipeline result as one whose SQL succeeds
with an empty result set — both are typed "database" with the
"executed successfully but returned no results" response, so the two
are not distinguishable from the returned result. -/
theorem db_failure_indistinguishable_from_empty :
    process_database_query true (some failEngine) true id wNlsql "how many rows"
      = process_database_query true (some emptyEngine) true id wNlsql "how many rows" ∧
    (process_database_query true (some failEngine) true id wNlsql "how many rows").rtype
      = "database" := by
  constructor <;> rfl

/-- C9 amended: an accepted SELECT executing with zero rows is reported
as a valid "database"-typed zero-row result (not error-typed) — but a
SQL execution failure of the generated statement yields the identical
result value, so the pipeline does not distinguish the two. -/
theorem db_zero_rows_conflated_with_failure
    (enhance : String → String) (nlsql : String → String × Option String)
    (q sql msg : String) (cols : List String)
    (hsql : (nlsql (enhance q)).2 = some sql)
    (hsel : pyStartsWith (pyUpper (pyStrip sql)) "SELECT" = true) :
    process_database_query true (some (fun _ => Except.ok ⟨cols, []⟩)) true enhance nlsql q
      = { response := "The query executed successfully but returned no results.",
          sql_query := some sql, data := none, rtype := "database" } ∧
    process_database_query true (some (fun _ => Except.error msg)) true enhance nlsql q
      = { response := "The query executed successfully but returned no results.",
          sql_query := some sql, data := none, rtype := "database" } := by
  unfold process_database_query natural_language_to_sql execute_sql_query
  simp [hsql, hsel, dataNoneOrEmpty]

theorem db_zero_rows_conflated_with_failure_witness :
    ((wNlsql (id "count all rows")).2 = some "SELECT a FROM t") ∧
    (pyStartsWith (pyUpper (pyStrip "SELECT a FROM t")) "SELECT" = true) ∧
    (process_database_query true (some (fun _ => Except.ok ⟨["a"], []⟩)) true id wNlsql
        "count all rows"
      = { response := "The query executed successfully but returned no results.",
          sql_query := some "SELECT a FROM t", data := none, rtype := "database" } ∧
     process_database_query true (some (fun _ => Except.error "boom")) true id wNlsql
        "count all rows"
      = { response := "The query executed successfully but returned no results.",
          sql_query := some "SELECT a FROM t", data := none, rtype := "database" }) :=
  ⟨rfl, by decide,
   db_zero_rows_conflated_with_failure id wNlsql "count all rows" "SELECT a FROM t"
     "boom" ["a"] rfl (by decide)⟩

/-- The steering system instruction of `process_general_query`, with the
source's literal line breaks and indentation. -/
def system_message : String :=
  "You are a helpful AI assistant. You can help users with general questions, \n            but you specialize in helping them work with documents and databases. If users ask about \n            documents or databases, suggest they upload documents or connect to a database first."

/-- What `process_general_query` does before completing: it assembles
`messages` — the system instruction, then the last 10 stored turns with
role user or assistant in chronological order, then the new user message
— and it passes `completionArg` to `llm.complete`.  The source computes
the former but calls `llm.complete(user_message)`, so `completionArg`
is the bare user message and the assembled list is never used. -/
structure GeneralCall where
  builtContext : List (String × String)
  completionArg : String
deriving DecidableEq

/-- The context-assembly and completion-call data of
`process_general_query`, read off the source. -/
def general_call (msgs : List Message) (user_message : String) : GeneralCall :=
  { builtContext :=
      ("system", system_message) ::
        (((msgs.drop (msgs.length - 10)).filter
            (fun m => m.role == "user" || m.role == "assistant")).map
          (fun m => (m.role, m.content)) ++ [("user", user_message)]),
    completionArg := user_message }

/-- Embeds `ChatEngine.process_general_query`: the completion oracle `llm` is
applied to the completion-call argument; any exception yields the
error-typed result. -/
def process_general_query (llm : String → Except String String)
    (msgs : List Message) (user_message : String) : ChatResult :=
  match llm (general_call msgs user_message).completionArg with
  | Except.ok text =>
    { response := text, rtype := "general", query := some user_message }
  | Except.error e =>
    { response := "Error processing general query: " ++ e, rtype := "error" }

/-- A conversation history with one prior user/assistant turn. -/
def c7History : List Message :=
  [⟨"user", "hi", 0, none⟩, ⟨"assistant", "hello! how can I help?", 1, none⟩]

/-- C7, refuted on the code (the constructed context is dead code): on
the general path with a non-empty history, the assembled context does
hold the system instruction, both stored turns in order and the new
message — yet the argument handed to the completion capability is the
bare user message, and an echoing completion oracle therefore sees
nothing but that bare message. -/
theorem general_query_drops_context :
    (general_call c7History "what can you do").builtContext
      = [("system", system_message), ("user", "hi"),
         ("assistant", "hello! how can I help?"), ("user", "what can you do")] ∧
    (general_call c7History "what can you do").completionArg = "what can you do" ∧
    (process_general_query (fun prompt => Except.ok prompt) c7History
        "what can you do").response = "what can you do" := by
  refine ⟨rfl, rfl, rfl⟩

/-- The collaborators behind one `ChatEngine.process_message` call:
connection status and uploaded-file corpus, the document query engine,
the relational store with the NL-to-SQL oracles, and the completion
oracle. -/
structure Env where
  dbConnected : Bool
  uploaded_files : List String
  query_engine : Option (String → Except String (String × List (String × ℚ)))
  engine : Option (String → Except String DF)
  hasSqlDatabase : Bool
  enhance : String → String
  nlsql : String → String × Option String
  llm : String → Except String String

/-- Embeds `ChatEngine.process_message`: reject blank input, otherwise append
the user message, classify, route (note the general route reads the
store after the user message was appended), and append the assistant
message carrying the result as metadata.  Returns the routing result and
the new store. -/
def process_message (limit : Nat) (env : Env) (msgs : List Message)
    (user_message : String) (now1 now2 : Nat) : ChatResult × List Message :=
  if pyStrip user_message = "" then
    ({ response := "Please enter a message.", rtype := "error" }, msgs)
  else
    let msgs1 := add_message limit msgs "user" user_message none now1
    let query_type := classify_query env.dbConnected env.uploaded_files user_message
    let result :=
      if query_type = "document" then
        process_document_query env.query_engine user_message
      else if query_type = "database" then
        process_database_query env.dbConnected env.engine env.hasSqlDatabase
          env.enhance env.nlsql user_message
      else
        process_general_query env.llm msgs1 user_message
    (result, add_message limit msgs1 "assistant" result.response (some result) now2)

theorem add_message_no_evict {limit : Nat} {msgs : List Message}
    {role content : String} {meta : Option ChatResult} {now : Nat}
    (h : msgs.length + 1 ≤ limit * 2) :
    add_message limit msgs role content meta now
      = msgs ++ [⟨role, content, now, meta⟩] := by
  unfold add_message append_message
  exact evict_of_le (by simp; omega)

/-- C1: blank (whitespace-only) input yields the error-typed
"Please enter a message." result and leaves the store untouched; any
other input appends exactly one user message and then exactly one
assistant message carrying the routed result — literally the two
`add_message` calls, and plain two-element concatenation whenever the
store has room. -/
theorem process_message_appends_user_then_assistant
    (limit : Nat) (env : Env) (msgs : List Message) (m : String) (now1 now2 : Nat) :
    (pyStrip m = "" →
      process_message limit env msgs m now1 now2
        = ({ response := "Please enter a message.", rtype := "error" }, msgs)) ∧
    (pyStrip m ≠ "" →
      (process_message limit env msgs m now1 now2).2
        = add_message limit (add_message limit msgs "user" m none now1) "assistant"
            (process_message limit env msgs m now1 now2).1.response
            (some (process_message limit env msgs m now1 now2).1) now2) ∧
    (pyStrip m ≠ "" → msgs.length + 2 ≤ limit * 2 →
      (process_message limit env msgs m now1 now2).2
        = msgs ++ [⟨"user", m, now1, none⟩,
            ⟨"assistant", (process_message limit env msgs m now1 now2).1.response,
              now2, some (process_message limit env msgs m now1 now2).1⟩]) := by
  have key : pyStrip m ≠ "" →
      (process_message limit env msgs m now1 now2).2
        = add_message limit (add_message limit msgs "user" m none now1) "assistant"
            (process_message limit env msgs m now1 now2).1.response
            (some (process_message limit env msgs m now1 now2).1) now2 := by
    intro h
    simp only [process_message, if_neg h]
  refine ⟨?_, key, ?_⟩
  · intro h
    simp only [process_message, if_pos h]
  · intro h hlen
    have e1 : add_message limit msgs "user" m none now1
        = msgs ++ [⟨"user", m, now1, none⟩] :=
      add_message_no_evict (by omega)
    rw [key h, e1, add_message_no_evict (by simp; omega)]
    simp

/-- A concrete environment: nothing uploaded, no database, an echoing
completion oracle. -/
def wEnv : Env :=
  { dbConnected := false, uploaded_files := [], query_engine := none,
    engine := none, hasSqlDatabase := false, enhance := id,
    nlsql := fun _ => ("", none),
    llm := fun prompt => Except.ok ("echo: " ++ prompt) }

theorem process_message_appends_witness :
    (pyStrip "   " = "") ∧
    process_message 20 wEnv [] "   " 0 1
      = ({ response := "Please enter a message.", rtype := "error" }, []) ∧
    (pyStrip "hi there" ≠ "") ∧ ([] : List Message).length + 2 ≤ 20 * 2 ∧
    (process_message 20 wEnv [] "hi there" 0 1).2
      = add_message 20 (add_message 20 [] "user" "hi there" none 0) "assistant"
          (process_message 20 wEnv [] "hi there" 0 1).1.response
          (some (process_message 20 wEnv [] "hi there" 0 1).1) 1 ∧
    (process_message 20 wEnv [] "hi there" 0 1).2
      = [] ++ [⟨"user", "hi there", 0, none⟩,
          ⟨"assistant", (process_message 20 wEnv [] "hi there" 0 1).1.response, 1,
            some (process_message 20 wEnv [] "hi there" 0 1).1⟩] :=
  ⟨by decide,
   (process_message_appends_user_then_assistant 20 wEnv [] "   " 0 1).1 (by decide),
   by decide, by decide,
   (process_message_appends_user_then_assistant 20 wEnv [] "hi there" 0 1).2.1
     (by decide),
   (process_message_appends_user_then_assistant 20 wEnv [] "hi there" 0 1).2.2
     (by decide) (by decide)⟩
